import Mathlib

/-!
Shallow embedding of the IPDL semantic analyzer found in src/src/type_check.rs.

The analyzer consumes AST values and an error accumulator that live in two
crates (ast.rs and errors.rs) which are not among the sources; those types
and their small helper methods are modelled from the spec and are marked
with a comment saying so.  Everything else is a direct translation of
type_check.rs.

Modelling conventions:
- Rust HashMap values keyed by names or ids are modelled as association
  lists; the (arbitrary) iteration order of a HashMap is modelled by the
  order of the list, which the driver receives as a parameter.
- In every embedded message string, the closing quote of the source
  (an apostrophe) and the apostrophe of contractions are rendered as a
  backtick, so messages read like: redeclaration of symbol `x`.
- The two graph walks of the source (fully_defined and
  protocol_managers_cycles) recurse through tables, not structurally; they
  take a fuel argument as a termination device.  Callers pass fuel that is
  large enough on inputs whose type references index live entries, which
  is the same implicit assumption the source makes when it unwraps.
-/

/-- Modelled from the spec: a source location, displayed inline in
diagnostics.  Its structure is irrelevant to the analyzer. -/
abbrev Location := String

/-- Modelled from the spec: a base identifier with a source location. -/
structure Identifier where
  id : String
  loc : Location
deriving DecidableEq, Repr

/-- Modelled from the spec: namespace components plus a base identifier;
yields a short name (the base) and a full name (joined by a double colon,
present only when there are namespace components, since a declaration with
an unqualified name binds only the one name). -/
structure QualifiedId where
  base_id : Identifier
  quals : List String
deriving DecidableEq, Repr

/-- Modelled from the spec: the rendering of a qualified id, as used by the
Display impl of the source crate. -/
def QualifiedId.display (q : QualifiedId) : String :=
  String.intercalate "::" (q.quals ++ [q.base_id.id])

def QualifiedId.short_name (q : QualifiedId) : String :=
  q.base_id.id

def QualifiedId.full_name (q : QualifiedId) : Option String :=
  if q.quals.isEmpty then none else some q.display

def QualifiedId.loc (q : QualifiedId) : Location :=
  q.base_id.loc

/-- Modelled from the spec: builds a qualified id from parts, the last part
being the base identifier; used for builtin type names. -/
def QualifiedId.new_from_parts (parts : List String) : QualifiedId :=
  { base_id := { id := (parts.getLast?).getD "", loc := "" },
    quals := parts.dropLast }

/-- Modelled from the spec: a declared namespace (protocol, struct or union
header), giving the qualified name of the declared entity. -/
structure PNamespace where
  name : Identifier
  namespaces : List String
deriving DecidableEq, Repr

def PNamespace.qname (ns : PNamespace) : QualifiedId :=
  { base_id := ns.name, quals := ns.namespaces }

/-- Modelled from the spec: send semantics of a message or protocol. -/
inductive SendSemantics where
  | Async
  | Sync
  | Intr
deriving DecidableEq, Repr

def SendSemantics.is_async : SendSemantics → Bool
  | .Async => true
  | _ => false

def SendSemantics.is_sync : SendSemantics → Bool
  | .Sync => true
  | _ => false

def SendSemantics.is_intr : SendSemantics → Bool
  | .Intr => true
  | _ => false

/-- Modelled from the spec: nesting level of a message, ordered
NotNested below InsideSync below InsideCpow. -/
inductive Nesting where
  | NotNested
  | InsideSync
  | InsideCpow
deriving DecidableEq, Repr

def Nesting.toNat : Nesting → Nat
  | .NotNested => 0
  | .InsideSync => 1
  | .InsideCpow => 2

def Nesting.is_none : Nesting → Bool
  | .NotNested => true
  | _ => false

def Nesting.inside_sync : Nesting → Bool
  | .InsideSync => true
  | _ => false

def Nesting.inside_cpow : Nesting → Bool
  | .InsideCpow => true
  | _ => false

/-- Modelled from the spec: message priority; carried through, never
inspected by the analyzer. -/
inductive Priority where
  | Normal
  | High
deriving DecidableEq, Repr

/-- Modelled from the spec: message direction. -/
inductive Direction where
  | ToParent
  | ToChild
  | Both
deriving DecidableEq, Repr

def Direction.is_to_child : Direction → Bool
  | .ToChild => true
  | _ => false

def Direction.is_both : Direction → Bool
  | .Both => true
  | _ => false

/-- Modelled from the spec: the compression flag of a message. -/
inductive Compress where
  | NoCompress
  | Enabled
  | All
deriving DecidableEq, Repr

/-- Modelled from the spec: a parsed type reference with its modifier
bits. -/
structure TypeSpec where
  spec : QualifiedId
  nullable : Bool
  array : Bool
  maybe : Bool
  uniqueptr : Bool
deriving DecidableEq, Repr

def TypeSpec.new (q : QualifiedId) : TypeSpec :=
  { spec := q, nullable := false, array := false, maybe := false, uniqueptr := false }

def TypeSpec.loc (ts : TypeSpec) : Location :=
  ts.spec.loc

/-- Modelled from the spec: a message parameter. -/
structure Param where
  name : Identifier
  type_spec : TypeSpec
deriving DecidableEq, Repr

/-- Modelled from the spec: a struct field. -/
structure StructField where
  type_spec : TypeSpec
  name : Identifier
deriving DecidableEq, Repr

/-- Modelled from the spec: a parsed message declaration. -/
structure MessageDecl where
  name : Identifier
  send_semantics : SendSemantics
  nested : Nesting
  prio : Priority
  direction : Direction
  in_params : List Param
  out_params : List Param
  compress : Compress
  verify : Bool
deriving DecidableEq, Repr

/-- Modelled from the spec: a parsed protocol body. -/
structure Protocol where
  send_semantics : SendSemantics
  nested : Nesting
  managers : List Identifier
  manages : List Identifier
  messages : List MessageDecl
deriving DecidableEq, Repr

/-- Modelled from the spec: a using-declaration. -/
structure UsingStmt where
  cxx_type : TypeSpec
  refcounted : Bool
  moveonly : Bool
deriving DecidableEq, Repr

/-- Modelled from the spec: an opaque comparable handle identifying one
translation unit of the input set. -/
abbrev TUId := Nat

/-- Modelled from the spec: one parsed translation unit.  The
file_base_name field models the basename of the source path (the value of
tu.file_name.file_name() in the source, none when the path has no final
component). -/
structure TranslationUnit where
  file_base_name : Option String
  nspace : PNamespace
  protocol : Option (PNamespace × Protocol)
  includes : List TUId
  usings : List UsingStmt
  structs : List (PNamespace × List StructField)
  unions : List (PNamespace × List TypeSpec)
deriving DecidableEq, Repr

/-- Modelled from the spec: the append-only diagnostic collection of
errors.rs; each diagnostic is a source location plus a message. -/
abbrev Errors := List (Location × String)

/-- Modelled from the spec: rendering of a diagnostic collection into the
single fatal string returned by the driver. -/
def renderErrors (e : Errors) : String :=
  String.intercalate "\n" (e.map (fun p => p.1 ++ ": " ++ p.2))

/-- Modelled from the spec: Errors::to_result. -/
def errorsToResult (e : Errors) : Except String Unit :=
  if e.isEmpty then .ok () else .error (renderErrors e)

/-! From here on everything is translated from src/src/type_check.rs. -/

def BUILTIN_TYPES : List String :=
  [ "bool", "char", "short", "int", "long", "float", "double",
    "int8_t", "uint8_t", "int16_t", "uint16_t", "int32_t", "uint32_t",
    "int64_t", "uint64_t", "intptr_t", "uintptr_t",
    "size_t", "ssize_t",
    "nsresult", "nsString", "nsCString", "nsDependentSubstring",
    "nsDependentCSubstring", "mozilla::ipc::Shmem", "mozilla::ipc::ByteBuf",
    "mozilla::UniquePtr", "mozilla::ipc::FileDescriptor" ]

/-- Modelled from the spec: splitting a builtin name on the double colon
separator, structurally over the character list. -/
def split_double_colon_aux : List Char → String → List String
  | [], acc => [acc]
  | ':' :: ':' :: rest, acc => acc :: split_double_colon_aux rest ""
  | c :: rest, acc => split_double_colon_aux rest (acc.push c)

/-- Modelled from the spec: tname.split on the double colon separator. -/
def split_double_colon (tname : String) : List String :=
  split_double_colon_aux tname.data ""

def builtin_from_string (tname : String) : TypeSpec :=
  TypeSpec.new (QualifiedId.new_from_parts (split_double_colon tname))

def DELETE_MESSAGE_NAME : String := "__delete__"

def CONSTRUCTOR_SUFFIX : String := "Constructor"

/-- TypeRef of the source: a pair of owning translation unit id and index
into that unit's structs or unions table. -/
structure TypeRef where
  tu : TUId
  index : Nat
deriving DecidableEq, Repr

/-- IPDLType of the source, one constructor per variant. -/
inductive IPDLType where
  | ImportedCxxType (qid : QualifiedId) (refcounted : Bool) (moveonly : Bool)
  | MessageType (tr : TypeRef)
  | ProtocolType (tu : TUId)
  | ActorType (tu : TUId) (nullable : Bool)
  | StructType (tr : TypeRef)
  | UnionType (tr : TypeRef)
  | ArrayType (inner : IPDLType)
  | MaybeType (inner : IPDLType)
  | ShmemType (qid : QualifiedId)
  | ByteBufType (qid : QualifiedId)
  | FDType (qid : QualifiedId)
  | EndpointType (qid : QualifiedId)
  | ManagedEndpointType (qid : QualifiedId)
  | UniquePtrType (inner : IPDLType)
deriving DecidableEq, Repr

def IPDLType.type_name : IPDLType → String
  | .ImportedCxxType _ _ _ => "imported C++ type"
  | .MessageType _ => "message type"
  | .ProtocolType _ => "protocol type"
  | .ActorType _ _ => "actor type"
  | .StructType _ => "struct type"
  | .UnionType _ => "union type"
  | .ArrayType _ => "array type"
  | .MaybeType _ => "maybe type"
  | .ShmemType _ => "shmem type"
  | .ByteBufType _ => "bytebuf type"
  | .FDType _ => "fd type"
  | .EndpointType _ => "endpoint type"
  | .ManagedEndpointType _ => "managed endpoint type"
  | .UniquePtrType _ => "uniqueptr type"

/-- IPDLType::canonicalize of the source: rewrite a protocol base type to
an actor type (consuming the nullable bit), diagnose a nullable bit on a
non-actor result, then wrap with array, maybe and uniqueptr in that
order. -/
def IPDLType.canonicalize (t : IPDLType) (type_spec : TypeSpec) : Errors × IPDLType :=
  let itype :=
    match t with
    | .ProtocolType p => IPDLType.ActorType p type_spec.nullable
    | _ => t
  let errors : Errors :=
    match itype with
    | .ActorType _ _ => []
    | _ =>
      if type_spec.nullable then
        [(type_spec.loc, "`nullable` qualifier for " ++ itype.type_name ++ " makes no sense")]
      else []
  let itype := if type_spec.array then IPDLType.ArrayType itype else itype
  let itype := if type_spec.maybe then IPDLType.MaybeType itype else itype
  let itype := if type_spec.uniqueptr then IPDLType.UniquePtrType itype else itype
  (errors, itype)

def IPDLType.is_refcounted : IPDLType → Bool
  | .ImportedCxxType _ refcounted _ => refcounted
  | _ => false

def IPDLType.is_moveonly : IPDLType → Bool
  | .ImportedCxxType _ _ moveonly => moveonly
  | _ => false

/-- StructTypeDef of the source. -/
structure StructTypeDef where
  qname : QualifiedId
  fields : List IPDLType
deriving DecidableEq, Repr

def StructTypeDef.new (ns : PNamespace) : StructTypeDef :=
  { qname := ns.qname, fields := [] }

/-- UnionTypeDef of the source. -/
structure UnionTypeDef where
  qname : QualifiedId
  components : List IPDLType
deriving DecidableEq, Repr

def UnionTypeDef.new (ns : PNamespace) : UnionTypeDef :=
  { qname := ns.qname, components := [] }

/-- MessageType of the source: the ctor/dtor/other classification tag. -/
inductive MessageKindTag where
  | Ctor (target : TUId)
  | Dtor (owner : TUId)
  | Other
deriving DecidableEq, Repr

def MessageKindTag.is_ctor : MessageKindTag → Bool
  | .Ctor _ => true
  | _ => false

def MessageKindTag.is_dtor : MessageKindTag → Bool
  | .Dtor _ => true
  | _ => false

/-- MessageStrength of the source. -/
structure MessageStrength where
  send_semantics : SendSemantics
  nested_min : Nesting
  nested_max : Nesting
deriving DecidableEq, Repr

/-- MessageStrength::converts_to of the source.  Nesting values compare by
their declaration order. -/
def MessageStrength.converts_to (self other : MessageStrength) : Bool :=
  if self.nested_min.toNat < other.nested_min.toNat then
    false
  else if self.nested_max.toNat > other.nested_max.toNat then
    false
  else if other.send_semantics.is_intr then
    self.nested_min.is_none && self.nested_max.is_none
  else
    match self.send_semantics with
    | .Async => true
    | .Sync => !other.send_semantics.is_async
    | .Intr => false

/-- ParamTypeDef of the source. -/
structure ParamTypeDef where
  name : Identifier
  param_type : IPDLType
deriving DecidableEq, Repr

/-- MessageTypeDef of the source. -/
structure MessageTypeDef where
  name : Identifier
  send_semantics : SendSemantics
  nested : Nesting
  prio : Priority
  direction : Direction
  params : List ParamTypeDef
  returns : List ParamTypeDef
  mtype : MessageKindTag
  compress : Compress
  verify : Bool
deriving DecidableEq, Repr

def MessageTypeDef.new (md : MessageDecl) (name : String) (mtype : MessageKindTag) :
    MessageTypeDef :=
  { name := { id := name, loc := md.name.loc },
    send_semantics := md.send_semantics,
    nested := md.nested,
    prio := md.prio,
    direction := md.direction,
    params := [],
    returns := [],
    mtype := mtype,
    compress := md.compress,
    verify := md.verify }

def MessageTypeDef.is_ctor (m : MessageTypeDef) : Bool :=
  m.mtype.is_ctor

/-- MessageTypeDef::constructed_type; the source panics on a non-ctor tag,
which is unreachable at its call site (guarded by is_ctor). -/
def MessageTypeDef.constructed_type (m : MessageTypeDef) : TUId :=
  match m.mtype with
  | .Ctor tuid => tuid
  | _ => 0

def MessageTypeDef.is_dtor (m : MessageTypeDef) : Bool :=
  m.mtype.is_dtor

def MessageTypeDef.message_strength (m : MessageTypeDef) : MessageStrength :=
  { send_semantics := m.send_semantics, nested_min := m.nested, nested_max := m.nested }

def MessageTypeDef.is_async (m : MessageTypeDef) : Bool :=
  m.send_semantics.is_async

def MessageTypeDef.is_sync (m : MessageTypeDef) : Bool :=
  m.send_semantics.is_sync

def MessageTypeDef.is_intr (m : MessageTypeDef) : Bool :=
  m.send_semantics.is_intr

/-- ProtocolTypeDef of the source. -/
structure ProtocolTypeDef where
  qname : QualifiedId
  send_semantics : SendSemantics
  nested : Nesting
  managers : List TUId
  manages : List TUId
  messages : List MessageTypeDef
  has_delete : Bool
  has_reentrant_delete : Bool
deriving DecidableEq, Repr

def ProtocolTypeDef.new (p : PNamespace × Protocol) : ProtocolTypeDef :=
  { qname := p.1.qname,
    send_semantics := p.2.send_semantics,
    nested := p.2.nested,
    managers := [],
    manages := [],
    messages := [],
    has_delete := false,
    has_reentrant_delete := false }

def ProtocolTypeDef.is_top_level (p : ProtocolTypeDef) : Bool :=
  p.managers.length == 0

def ProtocolTypeDef.message_strength (p : ProtocolTypeDef) : MessageStrength :=
  { send_semantics := p.send_semantics,
    nested_min := Nesting.NotNested,
    nested_max := p.nested }

def MessageTypeDef.converts_to (m : MessageTypeDef) (protocol : ProtocolTypeDef) : Bool :=
  m.message_strength.converts_to protocol.message_strength

def ProtocolTypeDef.converts_to (p other : ProtocolTypeDef) : Bool :=
  p.message_strength.converts_to other.message_strength

/-- Decl of the source: a symbol table entry. -/
structure Decl where
  loc : Location
  decl_type : IPDLType
  short_name : String
  full_name : Option String
deriving DecidableEq, Repr

def Decl.new (loc : Location) (decl_type : IPDLType) (short_name : String) : Decl :=
  { loc := loc, decl_type := decl_type, short_name := short_name, full_name := none }

def Decl.new_from_qid (qid : QualifiedId) (decl_type : IPDLType) : Decl :=
  { loc := qid.loc,
    decl_type := decl_type,
    short_name := qid.short_name,
    full_name := qid.full_name }

/-- One scope of the symbol table; models one HashMap of the scope
stack. -/
abbrev Scope := List (String × Decl)

/-- SymbolTable of the source: a stack of scopes.  The head of the list is
the global scope (index 0 of the Vec); entering a scope appends at the
end, exactly like Vec::push. -/
structure SymbolTable where
  scopes : List Scope
deriving DecidableEq, Repr

def SymbolTable.new : SymbolTable :=
  { scopes := [[]] }

def SymbolTable.enter_scope (st : SymbolTable) : SymbolTable :=
  { scopes := st.scopes ++ [[]] }

def SymbolTable.exit_scope (st : SymbolTable) : SymbolTable :=
  { scopes := st.scopes.dropLast }

/-- The scope iteration of SymbolTable::lookup: the source walks the Vec
of scopes from index 0 upward and returns the first hit. -/
def scan_scopes : List Scope → String → Option Decl
  | [], _ => none
  | s :: rest, sym =>
    match List.lookup sym s with
    | some e => some e
    | none => scan_scopes rest sym

def SymbolTable.lookup (st : SymbolTable) (sym : String) : Option Decl :=
  scan_scopes st.scopes sym

/-- Insertion into the innermost (last) scope, as done by
scopes.last_mut().unwrap().insert(...). -/
def update_last : List Scope → String → Decl → List Scope
  | [], name, decl => [[(name, decl)]]
  | [s], name, decl => [s ++ [(name, decl)]]
  | s :: rest, name, decl => s :: update_last rest name decl

def SymbolTable.declare_inner (st : SymbolTable) (name : String) (decl : Decl) :
    Errors × SymbolTable :=
  match st.lookup name with
  | some old_decl =>
    ([(decl.loc, "redeclaration of symbol `" ++ name ++ "`, first declared at " ++ old_decl.loc)],
     st)
  | none => ([], { scopes := update_last st.scopes name decl })

def SymbolTable.declare (st : SymbolTable) (decl : Decl) : Errors × SymbolTable :=
  let r1 := st.declare_inner decl.short_name decl
  match decl.full_name with
  | some full_name =>
    let r2 := r1.2.declare_inner full_name decl
    (r1.1 ++ r2.1, r2.2)
  | none => r1

/-- The catch-all arm of declare_cxx_type: deduplicate a redeclaration
whose full name is already bound with the same bits, diagnose mismatching
bits, and otherwise declare an imported C++ type. -/
def declare_cxx_type_generic (sym_tab : SymbolTable) (cxx_type : TypeSpec)
    (refcounted : Bool) (moveonly : Bool) : Errors × SymbolTable :=
  let ipdl_type := IPDLType.ImportedCxxType cxx_type.spec refcounted moveonly
  let full_name := cxx_type.spec.display
  match sym_tab.lookup full_name with
  | some decl =>
    match decl.full_name with
    | some existing_type =>
      if existing_type = full_name then
        if refcounted != decl.decl_type.is_refcounted then
          ([(cxx_type.loc,
             "inconsistent refcounted status of type `" ++ full_name ++
               "`, first declared at " ++ decl.loc)],
           sym_tab)
        else if moveonly != decl.decl_type.is_moveonly then
          ([(cxx_type.loc,
             "inconsistent moveonly status of type `" ++ full_name ++
               "`, first declared at " ++ decl.loc)],
           sym_tab)
        else
          ([], sym_tab)
      else
        sym_tab.declare (Decl.new_from_qid cxx_type.spec ipdl_type)
    | none => sym_tab.declare (Decl.new_from_qid cxx_type.spec ipdl_type)
  | none => sym_tab.declare (Decl.new_from_qid cxx_type.spec ipdl_type)

/-- declare_cxx_type of the source. -/
def declare_cxx_type (sym_tab : SymbolTable) (cxx_type : TypeSpec)
    (refcounted : Bool) (moveonly : Bool) : Errors × SymbolTable :=
  match cxx_type.spec.full_name with
  | some n =>
    if n = "mozilla::ipc::Shmem" then
      sym_tab.declare (Decl.new_from_qid cxx_type.spec (IPDLType.ShmemType cxx_type.spec))
    else if n = "mozilla::ipc::ByteBuf" then
      sym_tab.declare (Decl.new_from_qid cxx_type.spec (IPDLType.ByteBufType cxx_type.spec))
    else if n = "mozilla::ipc::FileDescriptor" then
      sym_tab.declare (Decl.new_from_qid cxx_type.spec (IPDLType.FDType cxx_type.spec))
    else
      declare_cxx_type_generic sym_tab cxx_type refcounted moveonly
  | none => declare_cxx_type_generic sym_tab cxx_type refcounted moveonly

/-- TranslationUnitType of the source. -/
structure TranslationUnitType where
  structs : List StructTypeDef
  unions : List UnionTypeDef
  protocol : Option ProtocolTypeDef
deriving DecidableEq, Repr

def TranslationUnitType.new (maybe_protocol : Option (PNamespace × Protocol)) :
    TranslationUnitType :=
  { structs := [], unions := [], protocol := maybe_protocol.map ProtocolTypeDef.new }

/-- The keyed collection of parsed translation units; the list order models
the iteration order of the Rust HashMap, which is arbitrary. -/
abbrev TUs := List (TUId × TranslationUnit)

/-- The keyed collection of typed translation units, in insertion order. -/
abbrev TUTs := List (TUId × TranslationUnitType)

/-- Fallback for a lookup the source unwraps; reached only on inputs where
the source would panic. -/
def default_tu : TranslationUnit :=
  { file_base_name := none,
    nspace := { name := { id := "", loc := "" }, namespaces := [] },
    protocol := none, includes := [], usings := [], structs := [], unions := [] }

/-- Fallback for a lookup the source unwraps; reached only on inputs where
the source would panic. -/
def default_tut : TranslationUnitType :=
  { structs := [], unions := [], protocol := none }

/-- Fallback for an index the source unwraps. -/
def default_struct_def : StructTypeDef :=
  { qname := { base_id := { id := "", loc := "" }, quals := [] }, fields := [] }

/-- Fallback for an index the source unwraps. -/
def default_union_def : UnionTypeDef :=
  { qname := { base_id := { id := "", loc := "" }, quals := [] }, components := [] }

/-- Fallback for an index the source unwraps. -/
def default_protocol_def : ProtocolTypeDef :=
  { qname := { base_id := { id := "", loc := "" }, quals := [] },
    send_semantics := SendSemantics.Async,
    nested := Nesting.NotNested,
    managers := [], manages := [], messages := [],
    has_delete := false, has_reentrant_delete := false }

/-- Fallback for an index the source unwraps. -/
def default_message_def : MessageTypeDef :=
  MessageTypeDef.new
    { name := { id := "", loc := "" },
      send_semantics := SendSemantics.Async,
      nested := Nesting.NotNested,
      prio := Priority.Normal,
      direction := Direction.ToParent,
      in_params := [], out_params := [],
      compress := Compress.NoCompress, verify := false }
    "" MessageKindTag.Other

/-- TypeRef::lookup_struct of the source. -/
def TypeRef.lookup_struct (tr : TypeRef) (tuts : TUTs) : StructTypeDef :=
  (((List.lookup tr.tu tuts).getD default_tut).structs.getD tr.index default_struct_def)

/-- TypeRef::lookup_union of the source. -/
def TypeRef.lookup_union (tr : TypeRef) (tuts : TUTs) : UnionTypeDef :=
  (((List.lookup tr.tu tuts).getD default_tut).unions.getD tr.index default_union_def)

/-- Replaces the binding of a key in an association list, appending when
absent; models HashMap insertion. -/
def assoc_insert {α β : Type} [DecidableEq α] (m : List (α × β)) (k : α) (v : β) :
    List (α × β) :=
  if (List.lookup k m).isSome then
    m.map (fun p => if p.1 = k then (k, v) else p)
  else
    m ++ [(k, v)]

/-- declare_protocol of the source: declare the protocol type under its
qualified name, plus the four endpoint wrapper names (which are bound only
under their short names; the qualified id is stored in the type). -/
def declare_protocol (sym_tab : SymbolTable) (tuid : TUId) (ns : PNamespace) :
    Errors × SymbolTable :=
  let p_type := IPDLType.ProtocolType tuid
  let r1 := sym_tab.declare (Decl.new_from_qid ns.qname p_type)
  let loc := ns.name.loc
  let declare_endpoint := fun (st : SymbolTable) (is_managed : Bool) (side : String) =>
    let endpoint_str := if is_managed then "ManagedEndpoint" else "Endpoint"
    let full_id : Identifier :=
      { id := endpoint_str ++ "<" ++ ns.qname.display ++ side ++ ">", loc := loc }
    let full_qid : QualifiedId := { base_id := full_id, quals := ["mozilla", "ipc"] }
    let endpoint_type :=
      if is_managed then IPDLType.ManagedEndpointType full_qid
      else IPDLType.EndpointType full_qid
    let short_name := endpoint_str ++ "<" ++ ns.name.id ++ side ++ ">"
    st.declare (Decl.new loc endpoint_type short_name)
  let r2 := declare_endpoint r1.2 true "Parent"
  let r3 := declare_endpoint r2.2 true "Child"
  let r4 := declare_endpoint r3.2 false "Parent"
  let r5 := declare_endpoint r4.2 false "Child"
  (r1.1 ++ r2.1 ++ r3.1 ++ r4.1 ++ r5.1, r5.2)

/-- declare_usings of the source. -/
def declare_usings (sym_tab : SymbolTable) (tu : TranslationUnit) : Errors × SymbolTable :=
  tu.usings.foldl
    (fun acc u =>
      let r := declare_cxx_type acc.2 u.cxx_type u.refcounted u.moveonly
      (acc.1 ++ r.1, r.2))
    (([] : Errors), sym_tab)

/-- declare_structs_and_unions of the source: forward declarations of the
unit's structs and unions under TypeRef-backed types. -/
def declare_structs_and_unions (sym_tab : SymbolTable) (tuid : TUId)
    (tu : TranslationUnit) : Errors × SymbolTable :=
  let rs := (tu.structs.enum).foldl
    (fun acc p =>
      let s_type := IPDLType.StructType { tu := tuid, index := p.1 }
      let r := acc.2.declare (Decl.new_from_qid p.2.1.qname s_type)
      (acc.1 ++ r.1, r.2))
    (([] : Errors), sym_tab)
  (tu.unions.enum).foldl
    (fun acc p =>
      let u_type := IPDLType.UnionType { tu := tuid, index := p.1 }
      let r := acc.2.declare (Decl.new_from_qid p.2.1.qname u_type)
      (acc.1 ++ r.1, r.2))
    rs

/-- gather_decls_struct of the source: fill one struct body inside a fresh
scope, dropping fields with unknown types. -/
def gather_decls_struct (sym_tab : SymbolTable) (su : PNamespace × List StructField)
    (sdef : StructTypeDef) : Errors × SymbolTable × StructTypeDef :=
  let st0 := sym_tab.enter_scope
  let r := su.2.foldl
    (fun (acc : Errors × SymbolTable × StructTypeDef) f =>
      let fty_string := f.type_spec.spec.display
      match acc.2.1.lookup fty_string with
      | none =>
        (acc.1 ++
           [(f.name.loc,
             "field `" ++ f.name.id ++ "` of struct `" ++ su.1.qname.short_name ++
               "` has unknown type `" ++ fty_string ++ "`")],
         acc.2.1, acc.2.2)
      | some fty_decl =>
        let c := fty_decl.decl_type.canonicalize f.type_spec
        let d := acc.2.1.declare (Decl.new f.name.loc c.2 f.name.id)
        (acc.1 ++ c.1 ++ d.1, d.2,
         { acc.2.2 with fields := acc.2.2.fields ++ [c.2] }))
    (([] : Errors), st0, sdef)
  (r.1, r.2.1.exit_scope, r.2.2)

/-- gather_decls_union of the source: fill one union body (no scope),
dropping components with unknown types. -/
def gather_decls_union (sym_tab : SymbolTable) (ud : PNamespace × List TypeSpec)
    (udef : UnionTypeDef) : Errors × SymbolTable × UnionTypeDef :=
  ud.2.foldl
    (fun (acc : Errors × SymbolTable × UnionTypeDef) c =>
      let c_string := c.spec.display
      match acc.2.1.lookup c_string with
      | none =>
        (acc.1 ++
           [(c.loc,
             "unknown component type `" ++ c_string ++ "` of union `" ++
               ud.1.qname.short_name ++ "`")],
         acc.2.1, acc.2.2)
      | some c_decl =>
        let r := c_decl.decl_type.canonicalize c
        (acc.1 ++ r.1, acc.2.1,
         { acc.2.2 with components := acc.2.2.components ++ [r.2] }))
    (([] : Errors), sym_tab, udef)

/-- gather_decls_manager of the source. -/
def gather_decls_manager (sym_tab : SymbolTable) (managee : PNamespace × Protocol)
    (managee_type : ProtocolTypeDef) (manager : Identifier) :
    Errors × ProtocolTypeDef :=
  match sym_tab.lookup manager.id with
  | none =>
    ([(manager.loc,
       "protocol `" ++ manager.id ++ "` referenced as |manager| of `" ++
         managee.1.qname.short_name ++ "` has not been declared")],
     managee_type)
  | some manager_decl =>
    match manager_decl.decl_type with
    | .ProtocolType pt =>
      ([], { managee_type with managers := managee_type.managers ++ [pt] })
    | _ =>
      ([(manager.loc,
         "entity `" ++ manager.id ++ "` referenced as |manager| of `" ++
           managee.1.qname.short_name ++
           "` is not of `protocol` type; instead it is a " ++
           manager_decl.decl_type.type_name)],
       managee_type)

/-- gather_decls_manages of the source. -/
def gather_decls_manages (sym_tab : SymbolTable) (manager : PNamespace × Protocol)
    (manager_type : ProtocolTypeDef) (managee : Identifier) :
    Errors × ProtocolTypeDef :=
  match sym_tab.lookup managee.id with
  | none =>
    ([(managee.loc,
       "protocol `" ++ managee.id ++ "`, managed by `" ++
         manager.1.qname.short_name ++ "`, has not been declared")],
     manager_type)
  | some managee_decl =>
    match managee_decl.decl_type with
    | .ProtocolType pt =>
      ([], { manager_type with manages := manager_type.manages ++ [pt] })
    | _ =>
      ([(managee.loc,
         manager.1.qname.short_name ++
           " declares itself managing a non-`protocol` entity `" ++ managee.id ++
           "` that is a " ++ managee_decl.decl_type.type_name)],
       manager_type)

/-- The param_to_decl closure of gather_decls_message: resolve one
parameter type, declare the parameter name in the message scope, and omit
the parameter when its type is unknown. -/
def param_to_decl (sym_tab : SymbolTable) (message_name : String) (param : Param) :
    Errors × SymbolTable × Option ParamTypeDef :=
  let pt_name := param.type_spec.spec.display
  match sym_tab.lookup pt_name with
  | some p_type =>
    let c := p_type.decl_type.canonicalize param.type_spec
    let decl := Decl.new param.type_spec.loc c.2 param.name.id
    let d := sym_tab.declare decl
    (c.1 ++ d.1, d.2, some { name := param.name, param_type := c.2 })
  | none =>
    ([(param.type_spec.loc,
       "argument typename `" ++ pt_name ++ "` of message `" ++ message_name ++
         "` has not been declared")],
     sym_tab, none)

/-- gather_decls_message of the source. -/
def gather_decls_message (sym_tab : SymbolTable) (tuid : TUId)
    (protocol_type : ProtocolTypeDef) (md : MessageDecl) :
    Errors × SymbolTable × ProtocolTypeDef :=
  let r0 :=
    match sym_tab.lookup md.name.id with
    | some decl =>
      match decl.decl_type with
      | .ProtocolType pt =>
        (([] : Errors), md.name.id ++ CONSTRUCTOR_SUFFIX, MessageKindTag.Ctor pt)
      | _ =>
        ([(md.name.loc,
           "message name `" ++ md.name.id ++ "` already declared as `" ++
             decl.decl_type.type_name ++ "`")],
         md.name.id, MessageKindTag.Other)
    | none => (([] : Errors), md.name.id, MessageKindTag.Other)
  let message_name := r0.2.1
  let mtype :=
    if DELETE_MESSAGE_NAME = message_name then MessageKindTag.Dtor tuid else r0.2.2
  let st1 := sym_tab.enter_scope
  let msg0 := MessageTypeDef.new md message_name mtype
  let rin := md.in_params.foldl
    (fun (acc : Errors × SymbolTable × MessageTypeDef) p =>
      let r := param_to_decl acc.2.1 message_name p
      match r.2.2 with
      | some t =>
        (acc.1 ++ r.1, r.2.1, { acc.2.2 with params := acc.2.2.params ++ [t] })
      | none => (acc.1 ++ r.1, r.2.1, acc.2.2))
    (r0.1, st1, msg0)
  let rout := md.out_params.foldl
    (fun (acc : Errors × SymbolTable × MessageTypeDef) p =>
      let r := param_to_decl acc.2.1 message_name p
      match r.2.2 with
      | some t =>
        (acc.1 ++ r.1, r.2.1, { acc.2.2 with returns := acc.2.2.returns ++ [t] })
      | none => (acc.1 ++ r.1, r.2.1, acc.2.2))
    rin
  let st2 := rout.2.1.exit_scope
  let index := protocol_type.messages.length
  let protocol_type2 := { protocol_type with messages := protocol_type.messages ++ [rout.2.2] }
  let mt := IPDLType.MessageType { tu := tuid, index := index }
  let rd := st2.declare (Decl.new md.name.loc mt message_name)
  (rout.1 ++ rd.1, rd.2, protocol_type2)

/-- gather_decls_protocol of the source. -/
def gather_decls_protocol (sym_tab : SymbolTable) (tuid : TUId)
    (p : PNamespace × Protocol) (p_type : ProtocolTypeDef) :
    Errors × SymbolTable × ProtocolTypeDef :=
  let st0 := sym_tab.enter_scope
  let rman := p.2.managers.foldl
    (fun (acc : Errors × List String × SymbolTable × ProtocolTypeDef) manager =>
      if acc.2.1.contains manager.id then
        (acc.1 ++
           [(manager.loc, "manager `" ++ manager.id ++ "` appears multiple times")],
         acc.2.1, acc.2.2.1, acc.2.2.2)
      else
        let seen := acc.2.1 ++ [manager.id]
        let r := gather_decls_manager acc.2.2.1 p acc.2.2.2 manager
        (acc.1 ++ r.1, seen, acc.2.2.1, r.2))
    (([] : Errors), ([] : List String), st0, p_type)
  let rmanages := p.2.manages.foldl
    (fun (acc : Errors × SymbolTable × ProtocolTypeDef) managee =>
      let r := gather_decls_manages acc.2.1 p acc.2.2 managee
      (acc.1 ++ r.1, acc.2.1, r.2))
    (rman.1, rman.2.2.1, rman.2.2.2)
  let e_empty : Errors :=
    if p.2.managers.length = 0 && p.2.messages.length = 0 then
      [(p.1.name.loc,
        "top-level protocol `" ++ p.1.qname.short_name ++ "` cannot be empty")]
    else []
  let rmsg := p.2.messages.foldl
    (fun (acc : Errors × SymbolTable × ProtocolTypeDef) md =>
      let r := gather_decls_message acc.2.1 tuid acc.2.2 md
      (acc.1 ++ r.1, r.2.1, r.2.2))
    (rmanages.1 ++ e_empty, rmanages.2.1, rmanages.2.2)
  let delete_type := rmsg.2.1.lookup DELETE_MESSAGE_NAME
  let p1 := { rmsg.2.2 with has_delete := delete_type.isSome }
  let e_dtor : Errors :=
    if !(p1.has_delete || p1.is_top_level) then
      [(p.1.name.loc,
        "destructor declaration `" ++ DELETE_MESSAGE_NAME ++
          "(...)` required for managed protocol `" ++ p.1.qname.short_name ++ "`")]
    else []
  let p2 :=
    { p1 with
      has_reentrant_delete :=
        match delete_type with
        | some decl =>
          match decl.decl_type with
          | .MessageType tr => (p1.messages.getD tr.index default_message_def).is_intr
          | _ => false
        | none => false }
  (rmsg.1 ++ e_dtor, rmsg.2.1.exit_scope, p2)

/-- gather_decls_tu of the source.  The source mutates the typed shell in
place and returns errors.to_result(); here the updated collection is
returned alongside the accumulated errors, and the driver converts. -/
def gather_decls_tu (tus : TUs) (tuts : TUTs) (tuid : TUId) (tu : TranslationUnit) :
    Errors × TUTs :=
  let st0 := SymbolTable.new
  let r1 :=
    match tu.protocol with
    | some p => declare_protocol st0 tuid p.1
    | none => (([] : Errors), st0)
  let r2 := tu.includes.foldl
    (fun (acc : Errors × SymbolTable) include_tuid =>
      let include_tu := (List.lookup include_tuid tus).getD default_tu
      match include_tu.protocol with
      | some p =>
        let r := declare_protocol acc.2 include_tuid p.1
        (acc.1 ++ r.1, r.2)
      | none =>
        let ra := declare_usings acc.2 include_tu
        let rb := declare_structs_and_unions ra.2 include_tuid include_tu
        (acc.1 ++ ra.1 ++ rb.1, rb.2))
    r1
  let r3 := BUILTIN_TYPES.foldl
    (fun (acc : Errors × SymbolTable) t =>
      let r := declare_cxx_type acc.2 (builtin_from_string t) false false
      (acc.1 ++ r.1, r.2))
    r2
  let r4 :=
    let r := declare_usings r3.2 tu
    (r3.1 ++ r.1, r.2)
  let tut0 := (List.lookup tuid tuts).getD default_tut
  let tut1 :=
    { tut0 with
      structs := tut0.structs ++ tu.structs.map (fun s => StructTypeDef.new s.1),
      unions := tut0.unions ++ tu.unions.map (fun u => UnionTypeDef.new u.1) }
  let r5 :=
    let r := declare_structs_and_unions r4.2 tuid tu
    (r4.1 ++ r.1, r.2)
  let r6 := (tu.structs.enum).foldl
    (fun (acc : Errors × SymbolTable × TranslationUnitType) p =>
      let sdef := acc.2.2.structs.getD p.1 default_struct_def
      let r := gather_decls_struct acc.2.1 p.2 sdef
      (acc.1 ++ r.1, r.2.1,
       { acc.2.2 with structs := acc.2.2.structs.set p.1 r.2.2 }))
    (r5.1, r5.2, tut1)
  let r7 := (tu.unions.enum).foldl
    (fun (acc : Errors × SymbolTable × TranslationUnitType) p =>
      let udef := acc.2.2.unions.getD p.1 default_union_def
      let r := gather_decls_union acc.2.1 p.2 udef
      (acc.1 ++ r.1, r.2.1,
       { acc.2.2 with unions := acc.2.2.unions.set p.1 r.2.2 }))
    r6
  let r8 :=
    match tu.protocol with
    | some p =>
      let ptype0 := r7.2.2.protocol.getD default_protocol_def
      let r := gather_decls_protocol r7.2.1 tuid p ptype0
      (r7.1 ++ r.1, r.2.1, { r7.2.2 with protocol := some r.2.2 })
    | none => r7
  (r8.1, assoc_insert tuts tuid r8.2.2)

/-- FullyDefinedState of the source. -/
inductive FullyDefinedState where
  | Visiting
  | Defined (is_defined : Bool)
deriving DecidableEq, Repr

/-- CompoundType of the source. -/
inductive CompoundType where
  | Struct
  | Union
deriving DecidableEq, Repr

/-- The shared memo table of fully_defined. -/
abbrev DefinedMap := List ((CompoundType × TypeRef) × FullyDefinedState)

mutual

/-- fully_defined of the source: memoized recursion computing whether a
type is fully defined, marking a compound key Visiting on entry and
treating a re-encountered Visiting key as not defined.  The fuel argument
is a termination device only; every call below strictly decreases it, and
callers pass enough fuel that the result is some value whenever the
source's own recursion terminates. -/
def fully_defined (tuts : TUTs) : Nat → DefinedMap → IPDLType →
    Option (Bool × DefinedMap)
  | 0, _, _ => none
  | fuel + 1, defined, t =>
    match t with
    | .ArrayType t_inner => fully_defined tuts fuel defined t_inner
    | .MaybeType t_inner => fully_defined tuts fuel defined t_inner
    | .UniquePtrType t_inner => fully_defined tuts fuel defined t_inner
    | .ImportedCxxType _ _ _ => some (true, defined)
    | .MessageType _ => some (true, defined)
    | .ProtocolType _ => some (true, defined)
    | .ActorType _ _ => some (true, defined)
    | .ShmemType _ => some (true, defined)
    | .ByteBufType _ => some (true, defined)
    | .FDType _ => some (true, defined)
    | .EndpointType _ => some (true, defined)
    | .ManagedEndpointType _ => some (true, defined)
    | .StructType tr =>
      let key := (CompoundType.Struct, tr)
      match List.lookup key defined with
      | some .Visiting => some (false, defined)
      | some (.Defined is_defined) => some (is_defined, defined)
      | none =>
        let defined1 := assoc_insert defined key FullyDefinedState.Visiting
        match fully_defined_all tuts fuel defined1 (tr.lookup_struct tuts).fields with
        | none => none
        | some (is_defined, d2) =>
          some (is_defined, assoc_insert d2 key (FullyDefinedState.Defined is_defined))
    | .UnionType tr =>
      let key := (CompoundType.Union, tr)
      match List.lookup key defined with
      | some .Visiting => some (false, defined)
      | some (.Defined is_defined) => some (is_defined, defined)
      | none =>
        let defined1 := assoc_insert defined key FullyDefinedState.Visiting
        match fully_defined_any tuts fuel defined1 (tr.lookup_union tuts).components with
        | none => none
        | some (is_defined, d2) =>
          some (is_defined, assoc_insert d2 key (FullyDefinedState.Defined is_defined))

/-- The struct loop of fully_defined: every field must be defined,
short-circuiting on the first failure. -/
def fully_defined_all (tuts : TUTs) : Nat → DefinedMap → List IPDLType →
    Option (Bool × DefinedMap)
  | 0, _, _ => none
  | _ + 1, defined, [] => some (true, defined)
  | fuel + 1, defined, f :: fs =>
    match fully_defined tuts fuel defined f with
    | none => none
    | some (false, d2) => some (false, d2)
    | some (true, d2) => fully_defined_all tuts fuel d2 fs

/-- The union loop of fully_defined: some component must be defined,
short-circuiting on the first success. -/
def fully_defined_any (tuts : TUTs) : Nat → DefinedMap → List IPDLType →
    Option (Bool × DefinedMap)
  | 0, _, _ => none
  | _ + 1, defined, [] => some (false, defined)
  | fuel + 1, defined, f :: fs =>
    match fully_defined tuts fuel defined f with
    | none => none
    | some (true, d2) => some (true, d2)
    | some (false, d2) => fully_defined_any tuts fuel d2 fs

end

/-- Weight of a type term, counting modifier wrappers. -/
def type_weight : IPDLType → Nat
  | .ArrayType t => type_weight t + 1
  | .MaybeType t => type_weight t + 1
  | .UniquePtrType t => type_weight t + 1
  | _ => 1

/-- Weight of a list of type terms. -/
def type_list_weight (l : List IPDLType) : Nat :=
  l.foldl (fun a t => a + type_weight t + 1) 1

/-- Weight of a typed collection: an upper bound on the branching of the
definedness recursion. -/
def tuts_weight (tuts : TUTs) : Nat :=
  tuts.foldl
    (fun a p =>
      a + 1 +
        p.2.structs.foldl (fun b s => b + type_list_weight s.fields) 1 +
        p.2.unions.foldl (fun b u => b + type_list_weight u.components) 1)
    1

/-- Fuel that the analyzer passes to fully_defined; it bounds the depth of
the call tree, which on live inputs is at most the number of compound keys
times the largest field list, so the square below is generous enough for
any input whose type references index live entries. -/
def fd_fuel (tuts : TUTs) : Nat :=
  (tuts_weight tuts + 2) * (tuts_weight tuts + 2)

/-- The totalized form of fully_defined used by the phase 3 driver; the
fallback is never reached with the fuel above on inputs the source
terminates on. -/
def fully_defined_run (tuts : TUTs) (defined : DefinedMap) (t : IPDLType) :
    Bool × DefinedMap :=
  (fully_defined tuts (fd_fuel tuts) defined t).getD (false, defined)

/-- ManagerCycleState of the source. -/
inductive ManagerCycleState where
  | Visiting
  | Acyclic
deriving DecidableEq, Repr

abbrev VisitedMap := List (TUId × ManagerCycleState)

/-- get_protocol_type of the source. -/
def get_protocol_type (tuts : TUTs) (tuid : TUId) : ProtocolTypeDef :=
  ((List.lookup tuid tuts).getD default_tut).protocol.getD default_protocol_def

/-- protocol_managers_cycles of the source: DFS over the manages edges,
reporting the stack as a cycle when a Visiting node is re-encountered and
skipping self-edges.  Fuel is a termination device only. -/
def protocol_managers_cycles (tuts : TUTs) : Nat → VisitedMap → List TUId → TUId →
    List String × VisitedMap
  | 0, visited, _, _ => ([], visited)
  | fuel + 1, visited, stack, tuid =>
    match List.lookup tuid visited with
    | some .Visiting =>
      let cycle_names :=
        (stack ++ [tuid]).map (fun p => (get_protocol_type tuts p).qname.display)
      (["`" ++ String.intercalate " -> " cycle_names ++ "`"], visited)
    | some .Acyclic => ([], visited)
    | none =>
      let visited1 := assoc_insert visited tuid ManagerCycleState.Visiting
      let pt := get_protocol_type tuts tuid
      let r := pt.manages.foldl
        (fun (acc : List String × VisitedMap) managee =>
          if managee == tuid then acc
          else
            let r := protocol_managers_cycles tuts fuel acc.2 (stack ++ [tuid]) managee
            (acc.1 ++ r.1, r.2))
        (([] : List String), visited1)
      (r.1, assoc_insert r.2 tuid ManagerCycleState.Acyclic)

/-- protocols_managers_acyclic of the source: run the cycle DFS once per
protocol-defining unit with a fresh visited map, and also reject a
protocol whose sole manager is itself. -/
def protocols_managers_acyclic (tuts : TUTs) : Errors :=
  tuts.foldl
    (fun (errors : Errors) p =>
      match p.2.protocol with
      | none => errors
      | some _ =>
        let pt := get_protocol_type tuts p.1
        let r := protocol_managers_cycles tuts (tuts.length + 2) [] [] p.1
        let e1 : Errors :=
          if r.1.length > 0 then
            [(pt.qname.loc,
              "cycle(s) detected in manager/manages hierarchy: " ++
                String.intercalate ", " r.1)]
          else []
        let e2 : Errors :=
          if pt.managers.length = 1 && pt.managers.getD 0 0 == p.1 then
            [(pt.qname.loc,
              "top-level protocol `" ++ pt.qname.short_name ++ "` cannot manage itself")]
          else []
        errors ++ e1 ++ e2)
    ([] : Errors)

/-- check_types_message of the source. -/
def check_types_message (ptype : ProtocolTypeDef) (mtype : MessageTypeDef) : Errors :=
  let mname := mtype.name.id
  let e1 : Errors :=
    if mtype.nested.inside_sync && !mtype.is_sync then
      [(mtype.name.loc,
        "inside_sync nested messages must be sync (here, message `" ++ mname ++
          "` in protocol `" ++ ptype.qname.short_name ++ "`)")]
    else []
  let is_to_child := mtype.direction.is_to_child || mtype.direction.is_both
  let e2 : Errors :=
    if mtype.nested.inside_cpow && is_to_child then
      [(mtype.name.loc,
        "inside_cpow nested parent-to-child messages are verboten (here, message `" ++
          mname ++ "` in protocol `" ++ ptype.qname.short_name ++ "`)")]
    else []
  let e3 : Errors :=
    if mtype.is_sync && mtype.nested.is_none && is_to_child then
      [(mtype.name.loc,
        "sync parent-to-child messages are verboten (here, message `" ++ mname ++
          "` in protocol `" ++ ptype.qname.short_name ++ "`)")]
    else []
  let e4 : Errors :=
    if !mtype.converts_to ptype then
      [(mtype.name.loc,
        "message `" ++ mname ++
          "` requires more powerful send semantics than its protocol `" ++
          ptype.qname.short_name ++ "` provides")]
    else []
  let e5 : Errors :=
    if (mtype.is_ctor || mtype.is_dtor) && mtype.is_async && mtype.returns.length > 0 then
      [(mtype.name.loc,
        "asynchronous ctor/dtor message `" ++ mname ++ "` declares return values")]
    else []
  let e6 : Errors :=
    if mtype.compress != Compress.NoCompress &&
        (!mtype.is_async || mtype.is_ctor || mtype.is_dtor) then
      let pname := ptype.qname.short_name
      if mtype.is_ctor || mtype.is_dtor then
        let message_type := if mtype.is_ctor then "constructor" else "destructor"
        [(mtype.name.loc,
          message_type ++ " messages can`t use compression (here, in protocol `" ++
            pname ++ "`)")]
      else
        [(mtype.name.loc,
          "message `" ++ mname ++ "` in protocol `" ++ pname ++
            "` requests compression but is not async")]
    else []
  let e7 : Errors :=
    if mtype.is_ctor && !(ptype.manages.contains mtype.constructed_type) then
      let ctor_protocol_len := mname.length - CONSTRUCTOR_SUFFIX.length
      [(mtype.name.loc,
        "ctor for protocol `" ++ (mname.take ctor_protocol_len) ++
          "`, which is not managed by protocol `" ++ ptype.qname.short_name ++ "`")]
    else []
  e1 ++ e2 ++ e3 ++ e4 ++ e5 ++ e6 ++ e7

/-- The body of the manager loop of check_types_protocol: the diagnostics
appended for one manager reference. -/
def check_manager_errors (tuts : TUTs) (tuid : TUId) (ptype : ProtocolTypeDef)
    (manager : TUId) : Errors :=
  let manager_type := get_protocol_type tuts manager
  let e1 : Errors :=
    if !ptype.converts_to manager_type then
      [(ptype.qname.loc,
        "protocol `" ++ ptype.qname.short_name ++
          "` requires more powerful send semantics than its manager `" ++
          manager_type.qname.short_name ++ "` provides")]
    else []
  let e2 : Errors :=
    if !(manager_type.manages.contains tuid) then
      [(manager_type.qname.loc,
        "|manager| declaration in protocol `" ++ ptype.qname.short_name ++
          "` does not match any |manages| declaration in protocol `" ++
          manager_type.qname.short_name ++ "`")]
    else []
  e1 ++ e2

/-- The body of the managee loop of check_types_protocol: the diagnostics
appended for one manages reference. -/
def check_managee_errors (tuts : TUTs) (tuid : TUId) (ptype : ProtocolTypeDef)
    (managee : TUId) : Errors :=
  let managee_type := get_protocol_type tuts managee
  if !(managee_type.managers.contains tuid) then
    [(managee_type.qname.loc,
      "|manages| declaration in protocol `" ++ ptype.qname.short_name ++
        "` does not match any |manager| declaration in protocol `" ++
        managee_type.qname.short_name ++ "`")]
  else []

/-- check_types_protocol of the source: the errors start with a full
manager/manages cycle scan over the whole collection, followed by the
diagnostics of the manager loop, the managee loop and the message
loop. -/
def check_types_protocol (tuts : TUTs) (tuid : TUId) (ptype : ProtocolTypeDef) :
    Errors :=
  let errors := protocols_managers_acyclic tuts
  let errors := ptype.managers.foldl
    (fun (errors : Errors) manager =>
      errors ++ check_manager_errors tuts tuid ptype manager)
    errors
  let errors := ptype.manages.foldl
    (fun (errors : Errors) managee =>
      errors ++ check_managee_errors tuts tuid ptype managee)
    errors
  ptype.messages.foldl
    (fun (errors : Errors) mtype => errors ++ check_types_message ptype mtype)
    errors

/-- check_types_tu of the source. -/
def check_types_tu (tus : TUs) (tuts : TUTs) (defined : DefinedMap) (tuid : TUId)
    (tut : TranslationUnitType) : Errors × DefinedMap :=
  let tu := (List.lookup tuid tus).getD default_tu
  let rs := (List.range tut.structs.length).foldl
    (fun (acc : Errors × DefinedMap) i =>
      let r := fully_defined_run tuts acc.2 (IPDLType.StructType { tu := tuid, index := i })
      if !r.1 then
        (acc.1 ++
           [(((tu.structs.getD i (default_tu.nspace, [])).1.name.loc),
             "struct `" ++ (tu.structs.getD i (default_tu.nspace, [])).1.name.id ++
               "` is only partially defined")],
         r.2)
      else (acc.1, r.2))
    (([] : Errors), defined)
  let ru := (List.range tut.unions.length).foldl
    (fun (acc : Errors × DefinedMap) i =>
      let r := fully_defined_run tuts acc.2 (IPDLType.UnionType { tu := tuid, index := i })
      if !r.1 then
        (acc.1 ++
           [(((tu.unions.getD i (default_tu.nspace, [])).1.name.loc),
             "union `" ++ (tu.unions.getD i (default_tu.nspace, [])).1.name.id ++
               "` is only partially defined")],
         r.2)
      else (acc.1, r.2))
    rs
  match tut.protocol with
  | some pt => (ru.1 ++ check_types_protocol tuts tuid pt, ru.2)
  | none => ru

/-- check_translation_unit of the source: a protocol file must be named
after its protocol. -/
def check_translation_unit (tu : TranslationUnit) : Except String Unit :=
  match tu.protocol with
  | some p =>
    match tu.file_base_name with
    | none => .error "File path has no file"
    | some base_file_name =>
      let expected_file_name := p.1.name.id ++ ".ipdl"
      if base_file_name ≠ expected_file_name then
        .error
          ("expected file for translation unit `" ++ tu.nspace.name.id ++
            "` to be named `" ++ expected_file_name ++ "`; instead it`s named `" ++
            base_file_name ++ "`.")
      else .ok ()
  | none => .ok ()

/-- The first loop of check: filename checks and creation of the typed
shells, short-circuiting on the first failure. -/
def run_phase1 : List (TUId × TranslationUnit) → TUTs → Except String TUTs
  | [], tuts => .ok tuts
  | (tuid, tu) :: rest, tuts =>
    match check_translation_unit tu with
    | .error e => .error e
    | .ok _ => run_phase1 rest (assoc_insert tuts tuid (TranslationUnitType.new tu.protocol))

/-- The second loop of check: declaration gathering per unit, converting
each unit's accumulated errors with to_result and short-circuiting (the
question mark operator) on the first unit whose collection is
non-empty. -/
def run_phase2 (tus : TUs) : List (TUId × TranslationUnit) → TUTs → Except String TUTs
  | [], tuts => .ok tuts
  | (tuid, tu) :: rest, tuts =>
    let r := gather_decls_tu tus tuts tuid tu
    if r.1.isEmpty then run_phase2 tus rest r.2 else .error (renderErrors r.1)

/-- The third loop of check: semantic validation per unit with the shared
definedness memo, short-circuiting on the first unit whose collection is
non-empty. -/
def run_phase3 (tus : TUs) (tuts : TUTs) : List (TUId × TranslationUnitType) →
    DefinedMap → Except String Unit
  | [], _ => .ok ()
  | (tuid, tut) :: rest, defined =>
    let r := check_types_tu tus tuts defined tuid tut
    if r.1.isEmpty then run_phase3 tus tuts rest r.2 else .error (renderErrors r.1)

/-- check of the source.  The Vec the source collects from the HashMap is
the input list; its order models the arbitrary iteration order of the
map.  Phase 3 iterates the typed collection in insertion order, one
instance of that same arbitrary order. -/
def check (tus_vec : TUs) : Except String Unit :=
  match run_phase1 tus_vec [] with
  | .error e => .error e
  | .ok tuts =>
    match run_phase2 tus_vec tus_vec tuts with
    | .error e => .error e
    | .ok tuts2 => run_phase3 tus_vec tuts2 tuts2 []

/-- Holds for the variants the spec calls leaves: every variant other than
struct, union and the three transparent modifiers is always defined. -/
def is_leaf_defined : IPDLType → Bool
  | .ImportedCxxType _ _ _ => true
  | .MessageType _ => true
  | .ProtocolType _ => true
  | .ActorType _ _ => true
  | .ShmemType _ => true
  | .ByteBufType _ => true
  | .FDType _ => true
  | .EndpointType _ => true
  | .ManagedEndpointType _ => true
  | _ => false

/-- Spec-side definedness relation, written from the words of the spec and
of the source comment above fully_defined: a leaf is defined, a modifier
is transparent, a struct is defined iff every field is, a union is defined
iff some component is.  As an inductive predicate it holds exactly when a
finite (well-founded) derivation exists, so an unfounded cycle is not
defined. -/
inductive SpecFullyDefined (tuts : TUTs) : IPDLType → Prop where
  | leaf (t : IPDLType) (h : is_leaf_defined t = true) : SpecFullyDefined tuts t
  | array {t : IPDLType} (h : SpecFullyDefined tuts t) :
      SpecFullyDefined tuts (IPDLType.ArrayType t)
  | maybe {t : IPDLType} (h : SpecFullyDefined tuts t) :
      SpecFullyDefined tuts (IPDLType.MaybeType t)
  | uniqueptr {t : IPDLType} (h : SpecFullyDefined tuts t) :
      SpecFullyDefined tuts (IPDLType.UniquePtrType t)
  | struct (tr : TypeRef)
      (h : ∀ f ∈ (tr.lookup_struct tuts).fields, SpecFullyDefined tuts f) :
      SpecFullyDefined tuts (IPDLType.StructType tr)
  | union (tr : TypeRef) (c : IPDLType)
      (hc : c ∈ (tr.lookup_union tuts).components)
      (h : SpecFullyDefined tuts c) :
      SpecFullyDefined tuts (IPDLType.UnionType tr)

/-! Concrete inputs used by the theorems below. -/

/-- An unqualified id at a named location. -/
def mk_qid (s : String) (l : Location) : QualifiedId :=
  { base_id := { id := s, loc := l }, quals := [] }

/-- An imported C++ leaf type standing for int. -/
def int_type : IPDLType :=
  IPDLType.ImportedCxxType (mk_qid "int" "") false false

/-- A typed collection with struct T (fields: union R, struct X), struct X
(field: union R) and union R (components: struct X, int).  Declaratively R
is defined through int, X through R and T through both, but the analyzer
reports T as not fully defined: while computing T it caches a spurious
negative for X (obtained under the assumption that R was still being
visited) and then reuses it for the second field of T. -/
def ex_defined_tuts : TUTs :=
  [ (0,
     { structs :=
         [ { qname := mk_qid "T" "lT",
             fields :=
               [ IPDLType.UnionType { tu := 0, index := 0 },
                 IPDLType.StructType { tu := 0, index := 1 } ] },
           { qname := mk_qid "X" "lX",
             fields := [ IPDLType.UnionType { tu := 0, index := 0 } ] } ],
       unions :=
         [ { qname := mk_qid "R" "lR",
             components :=
               [ IPDLType.StructType { tu := 0, index := 1 }, int_type ] } ],
       protocol := none }) ]

/-- A typed collection with struct X (field: union R) and union R
(components: struct X, int); the value the analyzer computes for X depends
on whether R was queried first. -/
def ex_order_tuts : TUTs :=
  [ (0,
     { structs :=
         [ { qname := mk_qid "X" "lX",
             fields := [ IPDLType.UnionType { tu := 0, index := 0 } ] } ],
       unions :=
         [ { qname := mk_qid "R" "lR",
             components :=
               [ IPDLType.StructType { tu := 0, index := 0 }, int_type ] } ],
       protocol := none }) ]

/-- A protocol shell for the cycle examples. -/
def mk_ptype (name : String) (l : Location) (manages : List TUId) :
    ProtocolTypeDef :=
  { qname := mk_qid name l,
    send_semantics := SendSemantics.Async,
    nested := Nesting.NotNested,
    managers := [],
    manages := manages,
    messages := [],
    has_delete := false,
    has_reentrant_delete := false }

/-- Three protocols: PA and PB manage each other, PC is unrelated. -/
def ex_cycle_tuts : TUTs :=
  [ (0, { structs := [], unions := [], protocol := some (mk_ptype "PA" "lPA" [1]) }),
    (1, { structs := [], unions := [], protocol := some (mk_ptype "PB" "lPB" [0]) }),
    (2, { structs := [], unions := [], protocol := some (mk_ptype "PC" "lPC" []) }) ]

/-- An empty protocol body for the driver examples. -/
def trivial_protocol : Protocol :=
  { send_semantics := SendSemantics.Async,
    nested := Nesting.NotNested,
    managers := [], manages := [], messages := [] }

/-- A protocol file whose basename does not match its protocol name. -/
def ex_file_tuA : TranslationUnit :=
  { file_base_name := some "X.ipdl",
    nspace := { name := { id := "A", loc := "lA" }, namespaces := [] },
    protocol := some ({ name := { id := "A", loc := "lA" }, namespaces := [] },
                      trivial_protocol),
    includes := [], usings := [], structs := [], unions := [] }

/-- A second mismatched protocol file. -/
def ex_file_tuB : TranslationUnit :=
  { file_base_name := some "Y.ipdl",
    nspace := { name := { id := "B", loc := "lB" }, namespaces := [] },
    protocol := some ({ name := { id := "B", loc := "lB" }, namespaces := [] },
                      trivial_protocol),
    includes := [], usings := [], structs := [], unions := [] }

/-- A header whose single struct has a field of unknown type, producing a
phase 2 diagnostic. -/
def mk_bad_header (sname : String) (sloc : String) (fname : String) (floc : String)
    (tyname : String) : TranslationUnit :=
  { file_base_name := none,
    nspace := { name := { id := "ns", loc := "lns" }, namespaces := [] },
    protocol := none,
    includes := [],
    usings := [],
    structs :=
      [ ({ name := { id := sname, loc := sloc }, namespaces := [] },
         [ { type_spec := TypeSpec.new (mk_qid tyname floc),
             name := { id := fname, loc := floc } } ]) ],
    unions := [] }

def ex_p2_tu0 : TranslationUnit := mk_bad_header "S1" "lS1" "f" "lf" "Zq"

def ex_p2_tu1 : TranslationUnit := mk_bad_header "S2" "lS2" "g" "lg" "Zr"

/-- A header whose single struct is well typed; the driver accepts it. -/
def ex_good_tu : TranslationUnit :=
  { file_base_name := none,
    nspace := { name := { id := "ns", loc := "lns" }, namespaces := [] },
    protocol := none,
    includes := [],
    usings := [],
    structs :=
      [ ({ name := { id := "S3", loc := "lS3" }, namespaces := [] },
         [ { type_spec := TypeSpec.new (mk_qid "int" "lh"),
             name := { id := "h", loc := "lh" } } ]) ],
    unions := [] }

/-! Helper lemmas shared by the theorems below. -/

theorem list_lookup_append {α β : Type} [BEq α] (k : α) (s t : List (α × β)) :
    List.lookup k (s ++ t) =
      match List.lookup k s with
      | some v => some v
      | none => List.lookup k t := by
  induction s with
  | nil => simp [List.lookup]
  | cons p rest ih =>
    rcases p with ⟨a, b⟩
    by_cases h : k == a
    · simp [List.lookup, h]
    · simp only [Bool.not_eq_true] at h
      simp [List.lookup, h, ih]

theorem scan_scopes_update_hit (scopes : List Scope) (name : String) (decl : Decl)
    (h : scan_scopes scopes name = none) :
    scan_scopes (update_last scopes name decl) name = some decl := by
  induction scopes with
  | nil =>
    simp [update_last, scan_scopes, List.lookup]
  | cons s rest ih =>
    have hs : List.lookup name s = none := by
      revert h
      simp only [scan_scopes]
      cases List.lookup name s <;> simp
    have hrest : scan_scopes rest name = none := by
      have h2 := h
      simp only [scan_scopes, hs] at h2
      exact h2
    cases rest with
    | nil =>
      simp only [update_last, scan_scopes]
      rw [list_lookup_append, hs]
      simp [List.lookup]
    | cons r rs =>
      simp only [update_last, scan_scopes, hs]
      exact ih hrest

theorem scan_scopes_update_other (scopes : List Scope) (name name2 : String)
    (decl : Decl) (h : name2 ≠ name) :
    scan_scopes (update_last scopes name decl) name2 = scan_scopes scopes name2 := by
  have hb : (name2 == name) = false := by
    simp [h]
  induction scopes with
  | nil =>
    simp [update_last, scan_scopes, List.lookup, hb]
  | cons s rest ih =>
    cases rest with
    | nil =>
      simp only [update_last, scan_scopes]
      rw [list_lookup_append]
      cases hs : List.lookup name2 s <;> simp [List.lookup, hb, scan_scopes]
    | cons r rs =>
      simp only [update_last, scan_scopes, ih]

theorem foldl_errors_prefix {α : Type} (step : Errors → α → Errors)
    (hstep : ∀ e x, step e x = e ++ step [] x) (l : List α) (init : Errors) :
    List.foldl step init l = init ++ List.foldl step [] l := by
  induction l generalizing init with
  | nil => simp
  | cons x xs ih =>
    simp only [List.foldl]
    rw [ih (step init x), ih (step [] x), hstep init x, List.append_assoc]

/-! Spec-side definitions used by the canonicalization theorem. -/

/-- Spec-side step 1 of canonicalization: a protocol base is rewritten to
an actor, consuming the nullable bit. -/
def spec_rewrite_base (t : IPDLType) (ts : TypeSpec) : IPDLType :=
  match t with
  | .ProtocolType p => IPDLType.ActorType p ts.nullable
  | _ => t

/-- Spec-side step 2 of canonicalization as amended: a set nullable bit is
an error exactly when the rewritten base is not an actor type. -/
def spec_nullable_errors (t : IPDLType) (ts : TypeSpec) : Errors :=
  match spec_rewrite_base t ts with
  | .ActorType _ _ => []
  | u =>
    if ts.nullable then
      [(ts.loc, "`nullable` qualifier for " ++ u.type_name ++ " makes no sense")]
    else []

/-- Spec-side steps 3 to 5 of canonicalization: wrap with array, then
maybe, then uniqueptr. -/
def spec_wrap_mods (t : IPDLType) (ts : TypeSpec) : IPDLType :=
  let t1 := if ts.array then IPDLType.ArrayType t else t
  let t2 := if ts.maybe then IPDLType.MaybeType t1 else t1
  if ts.uniqueptr then IPDLType.UniquePtrType t2 else t2

/-! Theorems for the claims. -/

/-- Claim C1 (counterexample): converts_to is not reflexive on every
strength; at the message strength of an Intr message with InsideSync
nesting it returns false, because an Intr target requires both nesting
bounds to be NotNested. -/
theorem converts_to_not_reflexive_cex :
    MessageStrength.converts_to
        { send_semantics := SendSemantics.Intr,
          nested_min := Nesting.InsideSync, nested_max := Nesting.InsideSync }
        { send_semantics := SendSemantics.Intr,
          nested_min := Nesting.InsideSync, nested_max := Nesting.InsideSync }
      = false := by
  decide

/-- Claim C1 (as amended): converts_to is reflexive at every strength
whose send semantics is not Intr, and at Intr strengths both of whose
nesting bounds are NotNested. -/
theorem converts_to_refl_amended (s : MessageStrength)
    (h : s.send_semantics ≠ SendSemantics.Intr ∨
         (s.nested_min = Nesting.NotNested ∧ s.nested_max = Nesting.NotNested)) :
    s.converts_to s = true := by
  obtain ⟨ss, mn, mx⟩ := s
  cases ss <;> cases mn <;> cases mx <;> first
    | decide
    | simp_all

/-- Witness for the amended C1 theorem at a Sync strength with InsideSync
nesting. -/
theorem converts_to_refl_amended_witness :
    MessageStrength.converts_to
        { send_semantics := SendSemantics.Sync,
          nested_min := Nesting.InsideSync, nested_max := Nesting.InsideSync }
        { send_semantics := SendSemantics.Sync,
          nested_min := Nesting.InsideSync, nested_max := Nesting.InsideSync }
      = true :=
  converts_to_refl_amended
    { send_semantics := SendSemantics.Sync,
      nested_min := Nesting.InsideSync, nested_max := Nesting.InsideSync }
    (Or.inl (by decide))

/-- Claim C4 (counterexample): on a base that is already an actor type
with the nullable bit set, canonicalize emits no error and silently drops
the bit, while the claim demands an error for every non-protocol base
with nullable set. -/
theorem canonicalize_nullable_actor_cex :
    IPDLType.canonicalize (IPDLType.ActorType 0 false)
        { spec := mk_qid "a" "l", nullable := true,
          array := false, maybe := false, uniqueptr := false }
      = ([], IPDLType.ActorType 0 false) := by
  rfl

/-- Claim C4 (as amended): canonicalize rewrites a protocol base to an
actor consuming the nullable bit, emits the nullable error exactly when
the resulting base is not an actor type while continuing, and then wraps
with array, maybe and uniqueptr in that order, returning the result with
the accumulated errors. -/
theorem canonicalize_five_steps (t : IPDLType) (ts : TypeSpec) :
    IPDLType.canonicalize t ts =
      (spec_nullable_errors t ts, spec_wrap_mods (spec_rewrite_base t ts) ts) := by
  cases t <;> rfl

/-- Claim C8 (counterexample): with the same name bound in two scopes the
source lookup returns the binding of the outermost scope (the head of the
scope stack), not the innermost one. -/
theorem lookup_not_innermost_cex :
    SymbolTable.lookup
        { scopes := [[("x", Decl.new "l1" int_type "x")],
                     [("x", Decl.new "l2" int_type "x")]] } "x"
      = some (Decl.new "l1" int_type "x")
    ∧ Decl.new "l1" int_type "x" ≠ Decl.new "l2" int_type "x" := by
  constructor
  · rfl
  · decide

/-- Claim C8 (as amended): lookup walks the scope stack outermost first
and returns the binding of the outermost scope containing the name, and
it returns none when no scope binds the name. -/
theorem lookup_outermost_first :
    (∀ (pre : List Scope) (s : Scope) (post : List Scope) (name : String) (d : Decl),
        (∀ sc ∈ pre, List.lookup name sc = none) →
        List.lookup name s = some d →
        SymbolTable.lookup { scopes := pre ++ s :: post } name = some d)
    ∧ (∀ (scopes : List Scope) (name : String),
        (∀ sc ∈ scopes, List.lookup name sc = none) →
        SymbolTable.lookup { scopes := scopes } name = none) := by
  constructor
  · intro pre s post name d hpre hs
    induction pre with
    | nil => simp [SymbolTable.lookup, scan_scopes, hs]
    | cons p rest ih =>
      have hp : List.lookup name p = none := hpre p (by simp)
      have hrest : ∀ sc ∈ rest, List.lookup name sc = none := by
        intro sc hsc
        exact hpre sc (by simp [hsc])
      simpa [SymbolTable.lookup, scan_scopes, hp] using ih hrest
  · intro scopes name hall
    induction scopes with
    | nil => rfl
    | cons p rest ih =>
      have hp : List.lookup name p = none := hall p (by simp)
      have hrest : ∀ sc ∈ rest, List.lookup name sc = none := by
        intro sc hsc
        exact hall sc (by simp [hsc])
      simpa [SymbolTable.lookup, scan_scopes, hp] using ih hrest

/-- Witness for the amended C8 theorem: a name bound only in the second
scope is found there. -/
theorem lookup_outermost_first_witness :
    SymbolTable.lookup
        { scopes := [[("y", Decl.new "l3" int_type "y")],
                     [("x", Decl.new "l2" int_type "x")]] } "x"
      = some (Decl.new "l2" int_type "x") :=
  lookup_outermost_first.1 [[("y", Decl.new "l3" int_type "y")]]
    [("x", Decl.new "l2" int_type "x")] [] "x" (Decl.new "l2" int_type "x")
    (by decide) (by decide)

/-- Claim C9: declare is not atomic on error.  When the declaration
carries both names and exactly one of them already resolves, declare
reports the redeclaration of the colliding name but still inserts the
binding under the other name, so the table changes although an error was
returned. -/
theorem declare_not_atomic (st : SymbolTable) (decl : Decl) (fn : String) (old : Decl)
    (hfn : decl.full_name = some fn) :
    (SymbolTable.lookup st decl.short_name = some old →
       SymbolTable.lookup st fn = none →
       (st.declare decl).1 ≠ [] ∧
         SymbolTable.lookup (st.declare decl).2 fn = some decl)
    ∧ (SymbolTable.lookup st decl.short_name = none →
       SymbolTable.lookup st fn = some old →
       (st.declare decl).1 ≠ [] ∧
         SymbolTable.lookup (st.declare decl).2 decl.short_name = some decl) := by
  constructor
  · intro hshort hfull
    simp only [SymbolTable.declare, SymbolTable.declare_inner, hshort, hfn, hfull]
    constructor
    · simp only [List.append_nil, ne_eq]
      exact List.cons_ne_nil _ _
    · exact scan_scopes_update_hit st.scopes fn decl hfull
  · intro hshort hfull
    have hshort2 : scan_scopes st.scopes decl.short_name = none := hshort
    have hne : fn ≠ decl.short_name := by
      intro he
      rw [he] at hfull
      rw [hshort] at hfull
      exact Option.noConfusion hfull
    have hmid :
        scan_scopes (update_last st.scopes decl.short_name decl) fn = some old := by
      rw [scan_scopes_update_other st.scopes decl.short_name fn decl hne]
      exact hfull
    simp only [SymbolTable.declare, SymbolTable.declare_inner, SymbolTable.lookup,
      hfn, hshort2, hmid]
    constructor
    · simp only [List.nil_append, ne_eq]
      exact List.cons_ne_nil _ _
    · exact scan_scopes_update_hit st.scopes decl.short_name decl hshort2

/-- Witness for the C9 theorem: the short name collides, the full name is
still inserted. -/
theorem declare_not_atomic_witness :
    (SymbolTable.declare
        { scopes := [[("n", Decl.new "l0" int_type "n")]] }
        { loc := "l1", decl_type := int_type, short_name := "n",
          full_name := some "M::n" }).1 ≠ [] ∧
      SymbolTable.lookup
          (SymbolTable.declare
            { scopes := [[("n", Decl.new "l0" int_type "n")]] }
            { loc := "l1", decl_type := int_type, short_name := "n",
              full_name := some "M::n" }).2 "M::n"
        = some { loc := "l1", decl_type := int_type, short_name := "n",
                 full_name := some "M::n" } :=
  (declare_not_atomic
      { scopes := [[("n", Decl.new "l0" int_type "n")]] }
      { loc := "l1", decl_type := int_type, short_name := "n",
        full_name := some "M::n" }
      "M::n" (Decl.new "l0" int_type "n") rfl).1 (by decide) (by decide)

/-- Claim C7 (counterexample): an unqualified using-declaration has no
recorded full name, so redeclaring it with identical bits does not take
the silent-dedup path: the second declaration emits a redeclaration
error. -/
theorem declare_cxx_type_unqualified_cex :
    (declare_cxx_type SymbolTable.new (TypeSpec.new (mk_qid "Foo" "l1")) false false).1 = []
    ∧ (declare_cxx_type
         (declare_cxx_type SymbolTable.new (TypeSpec.new (mk_qid "Foo" "l1")) false false).2
         (TypeSpec.new (mk_qid "Foo" "l1")) false false).1 ≠ [] := by
  decide

/-- Claim C7 (as amended): when a using-declaration name is
namespace-qualified, is not one of the three distinguished mozilla::ipc
types, and its full name is already bound to an imported C++ type
recording that same full name, then redeclaring it with identical
refcounted and moveonly bits emits no error and leaves the table
unchanged, while a mismatching bit emits an inconsistency error and also
leaves the table unchanged.  Unqualified names and the distinguished
types instead go through plain declare and collide. -/
theorem declare_cxx_type_dedup (st : SymbolTable) (ts : TypeSpec) (fn : String)
    (d : Decl) (q : QualifiedId) (rc mo : Bool)
    (h1 : ts.spec.full_name = some fn)
    (h2 : fn ≠ "mozilla::ipc::Shmem")
    (h3 : fn ≠ "mozilla::ipc::ByteBuf")
    (h4 : fn ≠ "mozilla::ipc::FileDescriptor")
    (h5 : st.lookup fn = some d)
    (h6 : d.full_name = some fn)
    (h7 : d.decl_type = IPDLType.ImportedCxxType q rc mo) :
    declare_cxx_type st ts rc mo = ([], st)
    ∧ (∀ rc2 mo2, (rc2 ≠ rc ∨ mo2 ≠ mo) →
        (declare_cxx_type st ts rc2 mo2).1 ≠ []
        ∧ (declare_cxx_type st ts rc2 mo2).2 = st) := by
  have hdisp : ts.spec.display = fn := by
    by_cases hq : ts.spec.quals.isEmpty
    · simp [QualifiedId.full_name, hq] at h1
    · simp [QualifiedId.full_name, hq] at h1
      exact h1
  have hrc : d.decl_type.is_refcounted = rc := by
    rw [h7]
    rfl
  have hmo : d.decl_type.is_moveonly = mo := by
    rw [h7]
    rfl
  have hmain : ∀ rc2 mo2,
      declare_cxx_type st ts rc2 mo2 =
        (if rc2 != rc then
          ([(ts.loc,
             "inconsistent refcounted status of type `" ++ fn ++
               "`, first declared at " ++ d.loc)], st)
        else if mo2 != mo then
          ([(ts.loc,
             "inconsistent moveonly status of type `" ++ fn ++
               "`, first declared at " ++ d.loc)], st)
        else ([], st)) := by
    intro rc2 mo2
    simp [declare_cxx_type, declare_cxx_type_generic, h1, h2, h3, h4, hdisp,
      h5, h6, hrc, hmo]
  constructor
  · rw [hmain rc mo]
    simp
  · intro rc2 mo2 hdiff
    rw [hmain rc2 mo2]
    rcases hdiff with hd | hd
    · have : (rc2 != rc) = true := by
        simp [hd]
      simp [this]
    · by_cases hrc2 : rc2 = rc
      · subst hrc2
        have : (mo2 != mo) = true := by
          simp [hd]
        simp [this]
      · have : (rc2 != rc) = true := by
          simp [hrc2]
        simp [this]

/-- Witness for the amended C7 theorem: a recorded qualified imported type
is silently deduplicated with equal bits and rejected with a differing
refcounted bit. -/
theorem declare_cxx_type_dedup_witness :
    declare_cxx_type
        { scopes := [[("Foo", Decl.new_from_qid
                                { base_id := { id := "Foo", loc := "l0" }, quals := ["M"] }
                                (IPDLType.ImportedCxxType
                                  { base_id := { id := "Foo", loc := "l0" }, quals := ["M"] }
                                  false false)),
                      ("M::Foo", Decl.new_from_qid
                                { base_id := { id := "Foo", loc := "l0" }, quals := ["M"] }
                                (IPDLType.ImportedCxxType
                                  { base_id := { id := "Foo", loc := "l0" }, quals := ["M"] }
                                  false false))]] }
        (TypeSpec.new { base_id := { id := "Foo", loc := "l1" }, quals := ["M"] })
        false false
      = ([], { scopes := [[("Foo", Decl.new_from_qid
                                { base_id := { id := "Foo", loc := "l0" }, quals := ["M"] }
                                (IPDLType.ImportedCxxType
                                  { base_id := { id := "Foo", loc := "l0" }, quals := ["M"] }
                                  false false)),
                      ("M::Foo", Decl.new_from_qid
                                { base_id := { id := "Foo", loc := "l0" }, quals := ["M"] }
                                (IPDLType.ImportedCxxType
                                  { base_id := { id := "Foo", loc := "l0" }, quals := ["M"] }
                                  false false))]] })
    ∧ (declare_cxx_type
        { scopes := [[("Foo", Decl.new_from_qid
                                { base_id := { id := "Foo", loc := "l0" }, quals := ["M"] }
                                (IPDLType.ImportedCxxType
                                  { base_id := { id := "Foo", loc := "l0" }, quals := ["M"] }
                                  false false)),
                      ("M::Foo", Decl.new_from_qid
                                { base_id := { id := "Foo", loc := "l0" }, quals := ["M"] }
                                (IPDLType.ImportedCxxType
                                  { base_id := { id := "Foo", loc := "l0" }, quals := ["M"] }
                                  false false))]] }
        (TypeSpec.new { base_id := { id := "Foo", loc := "l1" }, quals := ["M"] })
        true false).1 ≠ [] := by
  have h := declare_cxx_type_dedup
    { scopes := [[("Foo", Decl.new_from_qid
                            { base_id := { id := "Foo", loc := "l0" }, quals := ["M"] }
                            (IPDLType.ImportedCxxType
                              { base_id := { id := "Foo", loc := "l0" }, quals := ["M"] }
                              false false)),
                  ("M::Foo", Decl.new_from_qid
                            { base_id := { id := "Foo", loc := "l0" }, quals := ["M"] }
                            (IPDLType.ImportedCxxType
                              { base_id := { id := "Foo", loc := "l0" }, quals := ["M"] }
                              false false))]] }
    (TypeSpec.new { base_id := { id := "Foo", loc := "l1" }, quals := ["M"] })
    "M::Foo"
    (Decl.new_from_qid
      { base_id := { id := "Foo", loc := "l0" }, quals := ["M"] }
      (IPDLType.ImportedCxxType
        { base_id := { id := "Foo", loc := "l0" }, quals := ["M"] }
        false false))
    { base_id := { id := "Foo", loc := "l0" }, quals := ["M"] }
    false false
    (by decide) (by decide) (by decide) (by decide) (by decide) (by decide) (by decide)
  exact ⟨h.1, (h.2 true false (Or.inl (by decide))).1⟩

/-- Claim C2: the analyzer disagrees with the declarative definedness
relation.  On ex_defined_tuts the struct T is declaratively fully defined
(union R through int, struct X through R, T through both), but
fully_defined starting from T returns false: the first field caches a
spurious negative for X, computed while R was still marked Visiting, and
the second field reuses it. -/
theorem fully_defined_misses_declarative :
    (fully_defined ex_defined_tuts 60 []
        (IPDLType.StructType { tu := 0, index := 0 })).map Prod.fst = some false
    ∧ SpecFullyDefined ex_defined_tuts (IPDLType.StructType { tu := 0, index := 0 }) := by
  constructor
  · decide
  · have hR : SpecFullyDefined ex_defined_tuts (IPDLType.UnionType { tu := 0, index := 0 }) := by
      apply SpecFullyDefined.union { tu := 0, index := 0 } int_type
      · decide
      · exact SpecFullyDefined.leaf int_type rfl
    have hX : SpecFullyDefined ex_defined_tuts (IPDLType.StructType { tu := 0, index := 1 }) := by
      apply SpecFullyDefined.struct
      intro f hf
      have hfe : (TypeRef.lookup_struct { tu := 0, index := 1 } ex_defined_tuts).fields
          = [IPDLType.UnionType { tu := 0, index := 0 }] := by decide
      rw [hfe] at hf
      simp at hf
      rw [hf]
      exact hR
    apply SpecFullyDefined.struct
    intro f hf
    have hfe : (TypeRef.lookup_struct { tu := 0, index := 0 } ex_defined_tuts).fields
        = [IPDLType.UnionType { tu := 0, index := 0 },
           IPDLType.StructType { tu := 0, index := 1 }] := by decide
    rw [hfe] at hf
    simp at hf
    rcases hf with hf | hf
    · rw [hf]
      exact hR
    · rw [hf]
      exact hX

/-- Claim C3: the memoized result is not independent of the traversal
entry point.  On ex_order_tuts, querying union R first caches a spurious
negative for struct X, so a subsequent query for X under the shared memo
returns false, while a fresh query for X returns true. -/
theorem fully_defined_order_dependent :
    (Option.bind
        (fully_defined ex_order_tuts 60 [] (IPDLType.UnionType { tu := 0, index := 0 }))
        (fun p =>
          (fully_defined ex_order_tuts 60 p.2
              (IPDLType.StructType { tu := 0, index := 0 })).map Prod.fst))
      = some false
    ∧ (fully_defined ex_order_tuts 60 []
          (IPDLType.StructType { tu := 0, index := 0 })).map Prod.fst = some true := by
  constructor
  · decide
  · decide

/-- Specialization of the prefix lemma to a step that appends the
diagnostics of one element. -/
theorem foldl_append_errors {α : Type} (f : α → Errors) (l : List α) (init : Errors) :
    List.foldl (fun (e : Errors) x => e ++ f x) init l =
      init ++ List.foldl (fun (e : Errors) x => e ++ f x) [] l := by
  exact foldl_errors_prefix (fun e x => e ++ f x) (by intro e x; simp) l init

/-- Claim C10: check_types_protocol for any protocol starts with the full
manager/manages cycle scan over the whole collection, so its diagnostics
for one protocol contain one cycle report set covering all protocols; on
the concrete collection, checking the unrelated protocol PC returns
exactly the cycle reports of PA and PB. -/
theorem check_types_protocol_repeats_cycle_scan :
    (∀ (tuts : TUTs) (tuid : TUId) (ptype : ProtocolTypeDef),
        ∃ rest, check_types_protocol tuts tuid ptype =
          protocols_managers_acyclic tuts ++ rest)
    ∧ check_types_protocol ex_cycle_tuts 2 (mk_ptype "PC" "lPC" []) =
        protocols_managers_acyclic ex_cycle_tuts
    ∧ protocols_managers_acyclic ex_cycle_tuts =
        [("lPA", "cycle(s) detected in manager/manages hierarchy: `PA -> PB -> PA`"),
         ("lPB", "cycle(s) detected in manager/manages hierarchy: `PB -> PA -> PB`")] := by
  refine ⟨?_, ?_, ?_⟩
  · intro tuts tuid ptype
    simp only [check_types_protocol]
    rw [foldl_append_errors (check_manager_errors tuts tuid ptype) ptype.managers,
      foldl_append_errors (check_managee_errors tuts tuid ptype) ptype.manages,
      foldl_append_errors (check_types_message ptype) ptype.messages]
    exact ⟨List.foldl (fun e x => e ++ check_manager_errors tuts tuid ptype x) []
        ptype.managers ++
        (List.foldl (fun e x => e ++ check_managee_errors tuts tuid ptype x) []
            ptype.manages ++
          List.foldl (fun e x => e ++ check_types_message ptype x) [] ptype.messages),
      by simp [List.append_assoc]⟩
  · rfl
  · rfl

/-- Claim C5: the driver output depends on the iteration order of the
input map.  The two lists below contain the same key-value pairs (they are
a permutation of each other, second conjunct) and model two iteration
orders of one HashMap, yet check returns different fatal errors. -/
theorem check_order_dependent :
    check [(0, ex_file_tuA), (1, ex_file_tuB)] ≠
        check [(1, ex_file_tuB), (0, ex_file_tuA)]
    ∧ List.Perm [(0, ex_file_tuA), (1, ex_file_tuB)]
        [(1, ex_file_tuB), (0, ex_file_tuA)] := by
  constructor
  · intro h
    have h1 : check [(0, ex_file_tuA), (1, ex_file_tuB)] =
        Except.error
          "expected file for translation unit `A` to be named `A.ipdl`; instead it`s named `X.ipdl`." :=
      rfl
    have h2 : check [(1, ex_file_tuB), (0, ex_file_tuA)] =
        Except.error
          "expected file for translation unit `B` to be named `B.ipdl`; instead it`s named `Y.ipdl`." :=
      rfl
    rw [h1, h2] at h
    exact absurd (Except.error.inj h) (by decide)
  · exact List.Perm.swap (1, ex_file_tuB) (0, ex_file_tuA) []

/-- Claim C6 (counterexample): with two headers that both produce phase 2
diagnostics, check returns only the first unit's diagnostics; the second
unit's phase 2 diagnostics (computed here at exactly the state the loop
would have reached) are non-empty and absent from the returned fatal
error. -/
theorem check_stops_at_first_phase2_error_cex :
    check [(0, ex_p2_tu0), (1, ex_p2_tu1)] =
        .error (renderErrors [("lf", "field `f` of struct `S1` has unknown type `Zq`")])
    ∧ (gather_decls_tu [(0, ex_p2_tu0), (1, ex_p2_tu1)]
          (gather_decls_tu [(0, ex_p2_tu0), (1, ex_p2_tu1)]
            [(0, TranslationUnitType.new none), (1, TranslationUnitType.new none)]
            0 ex_p2_tu0).2
          1 ex_p2_tu1).1 =
        [("lg", "field `g` of struct `S2` has unknown type `Zr`")]
    ∧ renderErrors [("lf", "field `f` of struct `S1` has unknown type `Zq`")] ≠
        renderErrors [("lf", "field `f` of struct `S1` has unknown type `Zq`"),
                      ("lg", "field `g` of struct `S2` has unknown type `Zr`")] := by
  refine ⟨rfl, rfl, ?_⟩
  decide

/-- Claim C6 (as amended): a unit whose declaration gathering accumulates
diagnostics is fatal immediately: the phase 2 loop returns that unit's
rendered diagnostics and never looks at the remaining units, so phase 3
does not run; success requires every processed unit to produce no
diagnostics. -/
theorem phase2_unit_errors_are_fatal (tus : TUs) (tuts : TUTs) (tuid : TUId)
    (tu : TranslationUnit) (rest rest2 : List (TUId × TranslationUnit))
    (h : (gather_decls_tu tus tuts tuid tu).1 ≠ []) :
    run_phase2 tus ((tuid, tu) :: rest) tuts =
        .error (renderErrors (gather_decls_tu tus tuts tuid tu).1)
    ∧ run_phase2 tus ((tuid, tu) :: rest) tuts =
        run_phase2 tus ((tuid, tu) :: rest2) tuts := by
  have hf : (gather_decls_tu tus tuts tuid tu).1.isEmpty = false := by
    cases he : (gather_decls_tu tus tuts tuid tu).1 with
    | nil => exact absurd he h
    | cons a l => rfl
  constructor
  · simp only [run_phase2, hf]
    rfl
  · simp only [run_phase2, hf]
    rfl

/-- Witness for the amended C6 theorem at the concrete two-header
input. -/
theorem phase2_unit_errors_are_fatal_witness :
    run_phase2 [(0, ex_p2_tu0), (1, ex_p2_tu1)] [(0, ex_p2_tu0), (1, ex_p2_tu1)]
        [(0, TranslationUnitType.new none), (1, TranslationUnitType.new none)] =
      .error (renderErrors (gather_decls_tu [(0, ex_p2_tu0), (1, ex_p2_tu1)]
        [(0, TranslationUnitType.new none), (1, TranslationUnitType.new none)]
        0 ex_p2_tu0).1)
    ∧ run_phase2 [(0, ex_p2_tu0), (1, ex_p2_tu1)] [(0, ex_p2_tu0), (1, ex_p2_tu1)]
        [(0, TranslationUnitType.new none), (1, TranslationUnitType.new none)] =
      run_phase2 [(0, ex_p2_tu0), (1, ex_p2_tu1)] [(0, ex_p2_tu0)]
        [(0, TranslationUnitType.new none), (1, TranslationUnitType.new none)] :=
  phase2_unit_errors_are_fatal [(0, ex_p2_tu0), (1, ex_p2_tu1)]
    [(0, TranslationUnitType.new none), (1, TranslationUnitType.new none)]
    0 ex_p2_tu0 [(1, ex_p2_tu1)] [] (by decide)
